/-
Verification of the Jarvis voice-assistant repository (Go) against its
natural-language specification, as a shallow embedding in Lean 4.

Modelling conventions:
  * Go float64 values are modelled as exact rationals (either the type ℚ
    or unreduced integer fractions); every theorem below only evaluates
    the embedded code on inputs whose float64 computations are exact, so
    the rational model agrees with the source there.
  * Go strings are modelled as List Char (converted at the boundary).
  * Fallible Go code returns Except; a Go runtime panic is modelled as a
    dedicated error value or as none.
  * Loops of the source are embedded as fuel-indexed structural recursion
    (the fuel supplied at each call site dominates the number of
    iterations the source can perform, so the fuel-out branch is dead);
    this keeps every definition kernel-reducible.
-/
import Mathlib

deriving instance DecidableEq for Except

namespace Jarvis

/-! ## Go string primitives used by the brain calculator
    (internal/brain/brain.go) -/

/-- Model of the Split method of a compiled Go regexp whose pattern is a
single-character class (such as the patterns used in brain.go).
Go regexp Split cuts the string at every match and DROPS the separators;
capturing groups in the pattern do not add the separators to the result
(unlike re.split in Python). -/
def splitAnyChar (p : Char → Bool) : List Char → List (List Char)
  | [] => [[]]
  | c :: rest =>
    match splitAnyChar p rest with
    | [] => [[]]            -- unreachable: the function never returns []
    | h :: t => if p c then [] :: h :: t else (c :: h) :: t

/-- Index of the last occurrence of a character (strings.LastIndex with a
one-character needle). -/
def lastIndexOf (c : Char) (s : List Char) : Option Nat :=
  match (s.reverse).findIdx? (fun d => d = c) with
  | none => none
  | some j => some (s.length - 1 - j)

/-- Absolute index of the first occurrence of a character at or after
position i (strings.Index applied to the suffix, plus the offset). -/
def indexOfFrom (c : Char) (s : List Char) (i : Nat) : Option Nat :=
  match (s.drop i).findIdx? (fun d => d = c) with
  | none => none
  | some j => some (i + j)

/-- Model of strings.TrimSpace. -/
def trimSpace (s : List Char) : List Char :=
  ((s.dropWhile Char.isWhitespace).reverse.dropWhile Char.isWhitespace).reverse

/-- Numeric value of a list of decimal digits. -/
def digitsToNat (l : List Char) : Nat :=
  l.foldl (fun a c => 10 * a + (c.toNat - 48)) 0

/-- Exact value of a Go float64, kept as an UNREDUCED integer fraction
num/den with den > 0 at every construction site below.  Keeping the
fraction unreduced makes every operation plain integer arithmetic, so
all evaluations reduce inside the kernel; on the inputs evaluated by
the theorems below every float64 computation of the source is exact, so
this model agrees with the source there. -/
structure GoFloat where
  num : Int
  den : Int
  deriving DecidableEq, Repr

/-- Float64 addition (exact). -/
def GoFloat.add (a b : GoFloat) : GoFloat :=
  ⟨a.num * b.den + b.num * a.den, a.den * b.den⟩

/-- Float64 subtraction (exact). -/
def GoFloat.sub (a b : GoFloat) : GoFloat :=
  ⟨a.num * b.den - b.num * a.den, a.den * b.den⟩

/-- Float64 multiplication (exact). -/
def GoFloat.mul (a b : GoFloat) : GoFloat :=
  ⟨a.num * b.num, a.den * b.den⟩

/-- Float64 division (exact); the source only divides after checking the
divisor against zero. -/
def GoFloat.div (a b : GoFloat) : GoFloat :=
  ⟨a.num * b.den, a.den * b.num⟩

/-- Comparison with the float64 zero: with a nonzero denominator the
value is zero exactly when the numerator is. -/
def GoFloat.isZero (a : GoFloat) : Bool :=
  a.num = 0

/-- Model of strconv.ParseFloat restricted to the character material that
can actually reach it in brain.go: the argument is a piece of a
validated expression with every + - * / removed by splitting, so only
digits, the dot, the caret and parentheses can occur.  Accepts
digits [ dot digits ] with at least one digit (ParseFloat also accepts
forms like "2." and ".5"), rejects everything else.  The value is exact
(the verified inputs stay well inside exact float64 territory). -/
def parseFloat (s : List Char) : Option GoFloat :=
  let intPart := s.takeWhile Char.isDigit
  let rest := s.dropWhile Char.isDigit
  match rest with
  | [] => if intPart = [] then none else some ⟨digitsToNat intPart, 1⟩
  | '.' :: frac =>
    if frac.all Char.isDigit ∧ (intPart ≠ [] ∨ frac ≠ []) then
      some ⟨digitsToNat intPart * 10 ^ frac.length + digitsToNat frac,
            (10 : Int) ^ frac.length⟩
    else none
  | _ => none

/-- Model of the Sprintf verb %g used when a parenthesised group result is
substituted back into the expression string.  Exact for integral values,
which are the only values reaching this point in the inputs evaluated by
the theorems below; the shortest-round-trip formatting that %g performs
on non-integral float64 values is not modelled (the fallback branch
below is a placeholder that no verified input reaches). -/
def formatG (q : GoFloat) : List Char :=
  if q.num % q.den = 0 then
    let v := q.num / q.den
    (if v < 0 then ['-'] else []) ++ Nat.toDigits 10 v.natAbs
  else
    (if q.num < 0 then ['-'] else []) ++
      Nat.toDigits 10 q.num.natAbs ++ '.' :: Nat.toDigits 10 q.den.natAbs

/-- Errors of the brain calculator (brain.go).  Each constructor stands
for one fmt.Errorf message of the source; sliceBounds stands for the Go
runtime panic raised when the source slices an empty split part. -/
inductive CalcErr
  | invalidExpr                     -- "expresión inválida"
  | unbalancedParens                -- "paréntesis no balanceados"
  | emptyExpr                       -- "expresión vacía"
  | invalidNumber (s : List Char)   -- "número inválido: %s"
  | divByZero                       -- "división entre cero"
  | sliceBounds                     -- runtime panic: out-of-range slice
  | fuelExhausted                   -- embedding artifact, never reached
  deriving DecidableEq, Repr

/-- The multiplication/division loop of parseAndMultiplyDivide
(brain.go lines 311 to 332).  The loop variable starts at 1 and the
operator is read as the LAST CHARACTER of the preceding split part,
because the separators were dropped by Split; parts never contain the
characters * or /, so the two operator branches can only be reached if a
part ends in a literal * or /, which splitting makes impossible. -/
def pmdLoop (fuel : Nat) (parts : List (List Char)) (i : Nat) (result : GoFloat) :
    Except CalcErr GoFloat :=
  match fuel with
  | 0 => .error .fuelExhausted
  | fuel + 1 =>
    if h : i < parts.length then
      match (parts.get ⟨i - 1, by omega⟩).getLast? with
      | none => .error .sliceBounds
      | some op =>
        match parseFloat (parts.get ⟨i, h⟩) with
        | none => .error (.invalidNumber (parts.get ⟨i, h⟩))
        | some v =>
          if op = '*' then pmdLoop fuel parts (i + 2) (result.mul v)
          else if op = '/' then
            if v.isZero then .error .divByZero
            else pmdLoop fuel parts (i + 2) (result.div v)
          else pmdLoop fuel parts (i + 2) result
    else .ok result

/-- parseAndMultiplyDivide (brain.go lines 296 to 335). -/
def parseAndMultiplyDivide (expr0 : List Char) : Except CalcErr GoFloat :=
  let expr := trimSpace expr0
  if expr = [] then .error .emptyExpr
  else
    let parts := splitAnyChar (fun c => c = '*' ∨ c = '/') expr
    match parts with
    | [] => .error .sliceBounds   -- unreachable: Split never returns []
    | p0 :: _ =>
      match parseFloat p0 with
      | none => .error (.invalidNumber p0)
      | some r => pmdLoop parts.length parts 1 r

/-- The addition/subtraction loop of simpleEval (brain.go lines 270 to
291).  When the last character of the preceding part is not + or -
(which, separators being dropped, is always the case unless that part is
empty), the source falls back to operator +, decrements i, re-reads the
PRECEDING part as the next operand, and then advances i by 2 (net +1). -/
def sumLoop (fuel : Nat) (parts : List (List Char)) (i : Nat) (result : GoFloat) :
    Except CalcErr GoFloat :=
  match fuel with
  | 0 => .error .fuelExhausted
  | fuel + 1 =>
    if h : i < parts.length then
      match (parts.get ⟨i - 1, by omega⟩).getLast? with
      | none => .error .sliceBounds
      | some op =>
        if op = '+' ∨ op = '-' then
          match parseAndMultiplyDivide (parts.get ⟨i, h⟩) with
          | .error e => .error e
          | .ok v =>
            sumLoop fuel parts (i + 2) (if op = '+' then result.add v else result.sub v)
        else
          match parseAndMultiplyDivide (parts.get ⟨i - 1, by omega⟩) with
          | .error e => .error e
          | .ok v => sumLoop fuel parts (i + 1) (result.add v)
    else .ok result

/-- simpleEval (brain.go lines 232 to 294): first resolve the innermost
parenthesised group repeatedly (recursing into the group and splicing
the %g-formatted result back into the string), then split the flat
expression on + and - and fold.  The fuel bounds the recursion depth;
every call below supplies more fuel than the paren count, so the
fuel-out branch is dead on the evaluated inputs. -/
def simpleEval : Nat → List Char → Except CalcErr GoFloat
  | 0, _ => .error .fuelExhausted
  | fuel + 1, expr =>
    match lastIndexOf '(' expr with
    | some openIdx =>
      match indexOfFrom ')' expr openIdx with
      | none => .error .unbalancedParens
      | some closeIdx =>
        let inner := (expr.drop (openIdx + 1)).take (closeIdx - openIdx - 1)
        match simpleEval fuel inner with
        | .error e => .error e
        | .ok r =>
          simpleEval fuel (expr.take openIdx ++ formatG r ++ expr.drop (closeIdx + 1))
    | none =>
      let parts := splitAnyChar (fun c => c = '+' ∨ c = '-') expr
      match parts with
      | [] => .error .emptyExpr   -- the len(parts) == 0 check of the source
      | p0 :: _ =>
        match parseAndMultiplyDivide p0 with
        | .error e => .error e
        | .ok r => sumLoop parts.length parts 1 r

/-- The character class of the validation regexp in evaluateExpression. -/
def isValidCalcChar (c : Char) : Bool :=
  c.isDigit ∨ c ∈ ['+', '-', '*', '/', '.', '(', ')', '^']

/-- evaluateExpression (brain.go lines 215 to 230): strip spaces,
validate against the character class, then evaluate. -/
def evaluateExpression (s : String) : Except CalcErr GoFloat :=
  let expr := s.data.filter (fun c => c ≠ ' ')
  if expr ≠ [] ∧ expr.all isValidCalcChar then
    simpleEval (expr.length + 1) expr
  else .error .invalidExpr

/-! ## Audio sample utilities (pkg/utils, src/unnamed/part_002) -/

/-- CalculateRMS (src/unnamed/part_002 lines 70 to 82).  The doc comment
of the source says "calculates the Root Mean Square", but the body
returns sum / float64(len(samples)) with NO math.Sqrt applied: the mean
of the squared samples.  Samples are int16, and float64 addition of
int16 squares is exact far beyond any realistic block length, so the
rational model is exact on the inputs the theorems evaluate. -/
def CalculateRMS (samples : List ℤ) : ℚ :=
  if samples.length = 0 then 0
  else (samples.map (fun s => (s : ℚ) * s)).sum / samples.length

/-- The property claimed by the specification for CalculateRMS: the
result is the root-mean-square of the block, that is the square root of
the mean of the squared samples (stated over ℚ: nonnegative, and its
square is that mean). -/
def IsRootMeanSquare (samples : List ℤ) (r : ℚ) : Prop :=
  0 ≤ r ∧ r * r = (samples.map (fun s => (s : ℚ) * s)).sum / samples.length

/-! ## OBS volume mapping (internal/executor/obs/client.go) -/

/-- The volume-to-decibel computation inside setVolume
(internal/executor/obs/client.go lines 434 to 472): the caller volume is
clamped to [0,1]; a clamped volume of at most zero maps to the -100 dB
effectively-muted floor, any other clamped volume maps to
dB = 20 * (volume - 1) * 2, the documented simplified curve. -/
def obsVolumeDb (volume0 : ℚ) : ℚ :=
  let v1 := if volume0 < 0 then 0 else volume0
  let v2 := if v1 > 1 then 1 else v1
  if v2 ≤ 0 then -100 else 20 * (v2 - 1) * 2

/-- The SetInputVolume request issued by setVolume: the input name and
the decibel value sent to the tool; none models the parameter-validation
failure result for an empty source name. -/
def obsSetVolumeRequest (source : String) (volume : ℚ) : Option (String × ℚ) :=
  if source = "" then none else some (source, obsVolumeDb volume)

/-! ## Actions, results, executors and the registry
    (internal/llm in src/unnamed/part_007, internal/executor/executor.go) -/

/-- The value kinds that occur in the loosely typed Params / Data maps
(map from string to interface values in the source). -/
inductive GoValue
  | str (s : String)
  | int (n : ℤ)
  | float (q : ℚ)
  deriving DecidableEq, Repr

/-- llm.Action (src/unnamed/part_007 lines 113 to 117). -/
structure GoAction where
  action : String
  params : List (String × GoValue)
  reply : String

/-- Action.GetStringParam: the value under the key when it is a string,
otherwise the empty string. -/
def GoAction.getStringParam (a : GoAction) (key : String) : String :=
  match a.params.lookup key with
  | some (.str s) => s
  | _ => ""

/-- Action.GetFloatParam: a float64 or integer value under the key,
otherwise 0. -/
def GoAction.getFloatParam (a : GoAction) (key : String) : ℚ :=
  match a.params.lookup key with
  | some (.float q) => q
  | some (.int n) => (n : ℚ)
  | _ => 0

/-- executor.Result (internal/executor/executor.go lines 12 to 17). -/
structure GoResult where
  success : Bool
  message : String
  data : List (String × GoValue)
  error : String
  deriving DecidableEq, Repr

/-- executor.NewResult. -/
def NewResult (message : String) : GoResult :=
  ⟨true, message, [], ""⟩

/-- executor.NewResultWithData. -/
def NewResultWithData (message : String) (data : List (String × GoValue)) : GoResult :=
  ⟨true, message, data, ""⟩

/-- executor.NewErrorResult (the stored string is the error text). -/
def NewErrorResult (err : String) : GoResult :=
  ⟨false, "", [], err⟩

/-- Side effects observable while an executor runs; used to state that a
body was never entered. -/
inductive ExecEvent
  | executeCalled (name : String)
  | obsConnectCalled
  deriving DecidableEq, Repr

/-- One registered executor, modelled by its dispatch data and its
behaviour; execute returns the (Result, error) pair of the source
together with the trace of observable events. -/
structure ExecutorModel where
  name : String
  supportedActions : List String
  canHandle : String → Bool
  isAvailable : Bool
  execute : GoAction → (GoResult × Option String) × List ExecEvent

/-- Registry.FindExecutor (executor.go lines 89 to 96).  The source
iterates a Go map in unspecified order; the model iterates the
registration list in order, faithful whenever at most one registered
executor can handle the action, which holds in this repository since
executors claim disjoint name prefixes. -/
def FindExecutor (execs : List ExecutorModel) (action : String) :
    Option ExecutorModel :=
  execs.find? (fun e => e.canHandle action)

/-- Registry.Execute (executor.go lines 99 to 111): resolve, check
IsAvailable, and only then run the executor body. -/
def RegistryExecute (execs : List ExecutorModel) (a : GoAction) :
    (GoResult × Option String) × List ExecEvent :=
  match FindExecutor execs a.action with
  | none =>
    ((NewErrorResult ("no executor found for action: " ++ a.action),
      some ("no executor found for action: " ++ a.action)), [])
  | some e =>
    if e.isAvailable = false then
      ((NewErrorResult ("executor " ++ e.name ++ " is not available"),
        some ("executor " ++ e.name ++ " is not available")), [])
    else e.execute a

/-- Registry.Get (executor.go lines 83 to 86), a lookup by executor
name. -/
def RegistryGet (execs : List ExecutorModel) (name : String) :
    Option ExecutorModel :=
  execs.find? (fun e => e.name = name)

/-- Registry.GetAllActions (executor.go lines 114 to 120). -/
def GetAllActions (execs : List ExecutorModel) : List String :=
  execs.flatMap (fun e => e.supportedActions)

/-! ## The OBS executor through the registry
    (internal/executor/obs/client.go) -/

/-- The connection-relevant state of the OBS executor. -/
structure OBSState where
  enabled : Bool
  connected : Bool

/-- IsAvailable of the OBS executor (client.go lines 532 to 534):
available only when enabled AND already connected. -/
def obsIsAvailable (st : OBSState) : Bool :=
  st.enabled && st.connected

/-- Execute of the OBS executor (client.go lines 267 to 296): disabled is
a failure result; when not connected the body first runs the lazy
Connect (connectErr is its outcome, none meaning success) and only then
dispatches on the action.  The per-action handlers past this point are
abstracted by the dispatch argument: the claims only concern whether
this body, and in particular Connect, runs at all. -/
def obsExecute (st : OBSState) (connectErr : Option String)
    (dispatch : GoAction → GoResult × Option String) (a : GoAction) :
    (GoResult × Option String) × List ExecEvent :=
  if st.enabled = false then
    ((NewErrorResult "OBS is not enabled", none), [.executeCalled "obs"])
  else if st.connected = false then
    match connectErr with
    | some e => ((NewErrorResult e, some e), [.executeCalled "obs", .obsConnectCalled])
    | none => (dispatch a, [.executeCalled "obs", .obsConnectCalled])
  else (dispatch a, [.executeCalled "obs"])

/-- The OBS executor as a registry entry (Name, SupportedActions,
CanHandle and IsAvailable as in client.go). -/
def obsExecutorModel (st : OBSState) (connectErr : Option String)
    (dispatch : GoAction → GoResult × Option String) : ExecutorModel where
  name := "obs"
  supportedActions :=
    ["obs.scene", "obs.source.show", "obs.source.hide", "obs.volume",
     "obs.mute", "obs.unmute", "obs.text"]
  canHandle := fun action => action.startsWith "obs."
  isAvailable := obsIsAvailable st
  execute := obsExecute st connectErr dispatch

/-! ## The Brain (internal/brain/brain.go) -/

/-- The language-model provider as the Brain sees it: a name, the
IsAvailable answer, and Complete as a function from the prompt to an
Action or a transport error. -/
structure LLMProviderModel where
  name : String
  available : Bool
  complete : String → Except String GoAction

/-- The speech-synthesis provider as the Brain status handler sees it. -/
structure TTSProviderModel where
  name : String
  available : Bool

/-- The fixed degraded-mode reply of ProcessCommand (brain.go line 51),
the "no AI provider available" message of the specification. -/
def noProviderMsg : String :=
  "No hay ningún proveedor de IA disponible. Revisa tu configuración o prueba más tarde."

/-- The error text of each calculator error (the fmt.Errorf messages in
brain.go). -/
def calcErrMessage : CalcErr → String
  | .invalidExpr => "expresión inválida"
  | .unbalancedParens => "paréntesis no balanceados"
  | .emptyExpr => "expresión vacía"
  | .invalidNumber s => "número inválido: " ++ String.mk s
  | .divByZero => "división entre cero"
  | .sliceBounds => "runtime error: slice bounds out of range"
  | .fuelExhausted => "fuel exhausted"

/-- handleStatus (brain.go lines 137 to 165). -/
def handleStatus (p : LLMProviderModel) (tts : Option TTSProviderModel)
    (execs : List ExecutorModel) : String :=
  let llmLine :=
    if p.available then "LLM " ++ p.name ++ ": activo"
    else "LLM " ++ p.name ++ ": no disponible"
  let ttsLine :=
    match tts with
    | some t => if t.available then "TTS " ++ t.name ++ ": activo" else "TTS: no disponible"
    | none => "TTS: no disponible"
  let execLines := ["twitch", "obs", "music"].filterMap (fun n =>
    match RegistryGet execs n with
    | some e => some (if e.isAvailable then n ++ ": conectado" else n ++ ": desconectado")
    | none => none)
  "Estado del sistema: " ++ String.intercalate ", " (llmLine :: ttsLine :: execLines)

/-- handleHelp (brain.go lines 168 to 195).  An action belongs to a
category when its piece before the first dot is the category name and a
dot is present, which is exactly a prefix test against the category
followed by a dot. -/
def handleHelp (execs : List ExecutorModel) : String :=
  let actions := GetAllActions execs
  let cnt := fun (c : String) =>
    (actions.filter (fun a => a.startsWith (c ++ "."))).length
  let help := ["Puedo ayudarte con:"]
  let help := help ++
    (if cnt "twitch" > 0 then
      ["- Twitch: " ++ toString (cnt "twitch") ++ " acciones (clips, título, bans)"]
     else [])
  let help := help ++
    (if cnt "obs" > 0 then
      ["- OBS: " ++ toString (cnt "obs") ++ " acciones (escenas, fuentes, volumen)"]
     else [])
  let help := help ++
    (if cnt "music" > 0 then
      ["- Música: " ++ toString (cnt "music") ++ " acciones (play, pause, volumen)"]
     else [])
  let help := help ++ ["¿Qué necesitas?"]
  String.intercalate " " help

/-- handleCalc (brain.go lines 198 to 212): reads the expression
parameter by a string type assertion, evaluates it, and always returns
a nil error (a failed calculation becomes a spoken message). -/
def handleCalc (a : GoAction) : String :=
  match a.params.lookup "expression" with
  | some (.str s) =>
    if s = "" then "No entiendo la expresión matemática. Por favor intenta de nuevo."
    else
      match evaluateExpression s with
      | .error e => "No pude calcular esa expresión: " ++ calcErrMessage e
      | .ok _ => a.reply
  | _ => "No entiendo la expresión matemática. Por favor intenta de nuevo."

/-- ProcessCommand (brain.go lines 46 to 108).  The returned pair is the
(response, error) of the source together with the flag recording
whether Complete of the provider was invoked. -/
def ProcessCommand (llm : Option LLMProviderModel) (tts : Option TTSProviderModel)
    (execs : List ExecutorModel) (text : String) :
    (Except String String) × Bool :=
  match llm with
  | none => (.ok noProviderMsg, false)
  | some p =>
    if p.available = false then (.ok noProviderMsg, false)
    else
      match p.complete text with
      | .error err => (.error ("failed to interpret command: " ++ err), true)
      | .ok action =>
        if action.action = "none" ∨ action.action = "" then (.ok action.reply, true)
        else if action.action = "system.status" then
          (.ok (handleStatus p tts execs), true)
        else if action.action = "system.help" then
          (.ok (handleHelp execs), true)
        else if action.action = "calc" then
          (.ok (handleCalc action), true)
        else
          match (RegistryExecute execs action).1 with
          | (_, some err) =>
            (.ok (action.reply ++ ". Sin embargo, hubo un error: " ++ err), true)
          | (result, none) =>
            if result.success = false then
              (.ok (action.reply ++ ". Error: " ++ result.error), true)
            else (.ok action.reply, true)

/-! ## The music player (internal/executor/music/player.go) -/

/-- strings.ToLower; the character map of the core library covers the
ASCII range, which covers the file names and queries evaluated below. -/
def goToLower (s : List Char) : List Char :=
  s.map Char.toLower

/-- filepath.Base: the last slash-separated element of the path (the dot
for an empty path; the trailing-slash stripping of the original is not
needed for the walk-produced file paths modelled here). -/
def filepathBase (s : List Char) : List Char :=
  if s = [] then ['.'] else (s.reverse.takeWhile (fun c => c ≠ '/')).reverse

/-- filepath.Ext: the suffix of the last element beginning at its final
dot, empty when the last element has no dot. -/
def filepathExt (s : List Char) : List Char :=
  let rev := s.reverse.takeWhile (fun c => c ≠ '/')
  if rev.any (fun c => c = '.') then
    '.' :: (rev.takeWhile (fun c => c ≠ '.')).reverse
  else []

/-- strings.Contains on character lists. -/
def containsSub (s sub : List Char) : Bool :=
  (List.range (s.length + 1)).any (fun i => sub.isPrefixOf (s.drop i))

/-- The per-file filter of loadPlaylist (player.go lines 154 to 185): the
lower-cased extension must be one of the configured formats, and when a
query is present the lower-cased base name must contain the lower-cased
query.  Directories and walk errors are skipped by the source, so the
model receives only the regular files the walk yields. -/
def trackMatches (supportedFormats : List (List Char)) (query : List Char)
    (path : List Char) : Bool :=
  (supportedFormats.any (fun f => goToLower (filepathExt path) = f)) &&
  (query = [] || containsSub (goToLower (filepathBase path)) (goToLower query))

/-- loadPlaylist (player.go lines 146 to 192): the files of every
configured folder, in walk order, filtered as above.  The query is
lower-cased once up front (mirrored inside trackMatches). -/
def loadPlaylist (supportedFormats : List (List Char)) (query : List Char)
    (files : List (List Char)) : List (List Char) :=
  files.filter (trackMatches supportedFormats query)

/-- List lookup at a Go int index: none models the index-out-of-range
runtime panic (negative or past the end). -/
def listGetZ {α : Type} (l : List α) (i : ℤ) : Option α :=
  if h : 0 ≤ i ∧ i < (l.length : ℤ) then some (l.get ⟨i.toNat, by omega⟩)
  else none

/-- play (player.go lines 115 to 143): load the playlist for the query
parameter; an empty playlist is the "no music found" failure result;
otherwise playback starts at index 0 and the result reports the first
track and the track count.  The shuffle permutation is environmental
(shuffled stands for the rand.Shuffle outcome); loadPlaylist never
returns an error, so the load-error branch of the source is dead. -/
def musicPlay (supportedFormats : List (List Char)) (files : List (List Char))
    (shuffleEnabled : Bool) (shuffled : List (List Char) → List (List Char))
    (a : GoAction) : GoResult × Option String :=
  let playlist := loadPlaylist supportedFormats (a.getStringParam "query").data files
  if playlist.length = 0 then (NewErrorResult "no music found", none)
  else
    let playlist := if shuffleEnabled then shuffled playlist else playlist
    let track := String.mk (filepathBase (playlist.getD 0 []))
    (NewResultWithData "Playing music"
      [("track", .str track), ("total", .int playlist.length)], none)

/-- next (player.go lines 328 to 358): with a non-empty playlist the
wrapped next index is computed (the source leaves the stored index to
the playback loop) and the track at that index is reported; none models
the runtime panic of a negative index reaching the track lookup. -/
def musicNext (playlist : List (List Char)) (currentIdx : ℤ) :
    Option ((GoResult × Option String) × ℤ) :=
  if playlist.length = 0 then some ((NewErrorResult "no playlist", none), currentIdx)
  else
    let nextIdx := currentIdx + 1
    let nextIdx := if (playlist.length : ℤ) ≤ nextIdx then 0 else nextIdx
    if nextIdx < (playlist.length : ℤ) then
      match listGetZ playlist nextIdx with
      | none => none
      | some t =>
        some ((NewResultWithData "Next track"
          [("track", .str (String.mk (filepathBase t)))], none), nextIdx)
    else
      some ((NewResultWithData "Next track" [("track", .str "")], none), nextIdx)

/-- previous (player.go lines 361 to 390): with a non-empty playlist the
stored index moves back by two (the playback loop will advance it by
one), a negative result becomes length minus two, a still negative
result becomes zero; the reported track is the entry ONE PAST the new
index, and none models the runtime panic when that lookup is out of
range (as happens on a single-track playlist). -/
def musicPrevious (playlist : List (List Char)) (currentIdx0 : ℤ) :
    Option ((GoResult × Option String) × ℤ) :=
  if playlist.length = 0 then some ((NewErrorResult "no playlist", none), currentIdx0)
  else
    let i1 := currentIdx0 - 2
    let i2 := if i1 < 0 then (playlist.length : ℤ) - 2 else i1
    let i3 := if i2 < 0 then 0 else i2
    match listGetZ playlist (i3 + 1) with
    | none => none
    | some t =>
      some ((NewResultWithData "Previous track"
        [("track", .str (String.mk (filepathBase t)))], none), i3)

/-! ## The streaming-platform authenticated-request helper
    (the Twitch section appended to internal/executor/music/player.go,
    functions apiRequest and refreshAccessToken) -/

/-- The bearer and refresh tokens held by the Twitch executor. -/
structure TwitchTokens where
  accessToken : String
  refreshToken : String
  deriving DecidableEq, Repr

/-- One outcome of a POST to the token endpoint, as the environment
provides it: a transport error, a non-200 response with its body, or a
successful refresh carrying the two new tokens. -/
inductive RefreshOutcome
  | transportErr (msg : String)
  | httpFailure (body : String)
  | refreshed (access refresh : String)
  deriving DecidableEq, Repr

/-- One outcome of an HTTP attempt against the platform API. -/
inductive APIResponse
  | transportErr (msg : String)
  | response (status : ℕ) (body : String)
  deriving DecidableEq, Repr

/-- refreshAccessToken (lines 862 to 903 of the Twitch section): fails up
front without a refresh token, otherwise performs one POST, consuming
the next environment outcome; a non-200 status is the "token refresh
failed" error carrying the body, success replaces both tokens. -/
def refreshAccessToken (t : TwitchTokens) (env : List RefreshOutcome) :
    Except String (TwitchTokens × List RefreshOutcome) :=
  if t.refreshToken = "" then .error "no refresh token available"
  else
    match env with
    | [] => .error "request failed: no response"
    | .transportErr m :: _ => .error m
    | .httpFailure body :: _ => .error ("token refresh failed: " ++ body)
    | .refreshed a r :: rest => .ok (⟨a, r⟩, rest)

/-- apiRequest (lines 813 to 859 of the Twitch section): one HTTP attempt
per environment element.  A 401 runs refreshAccessToken and then
retries BY A FULL RECURSIVE CALL, so every further 401 again refreshes
and retries; a refresh failure is returned as the combined
"unauthorized and failed to refresh token" error; any other 4xx or 5xx
is an error carrying status and body; otherwise the body is returned.
The second component counts the refresh attempts made during the whole
call. -/
def apiRequest (t : TwitchTokens) (api : List APIResponse)
    (refreshEnv : List RefreshOutcome) : Except String String × ℕ :=
  match api with
  | [] => (.error "request failed: no response", 0)
  | .transportErr m :: _ => (.error ("request failed: " ++ m), 0)
  | .response status body :: rest =>
    if status = 401 then
      match refreshAccessToken t refreshEnv with
      | .error e => (.error ("unauthorized and failed to refresh token: " ++ e), 1)
      | .ok (t2, refreshRest) =>
        let r := apiRequest t2 rest refreshRest
        (r.1, r.2 + 1)
    else if 400 ≤ status then
      (.error ("API error " ++ toString status ++ ": " ++ body), 0)
    else (.ok body, 0)

/-! ## The processing pipeline (src/unnamed/part_005) -/

/-- The voice-activity flags of the pipeline at finalisation time:
whether analyzeVAD ever flagged speech, and whether the recorded speech
onset is still the zero time value. -/
structure VADFlags where
  hasSpeech : Bool
  speechStartIsZero : Bool

/-- Where processRecordedAudio stops. -/
inductive RecordedOutcome
  | droppedNoAudio
  | droppedTooShort
  | transcribed
  deriving DecidableEq, Repr

/-- processRecordedAudio (src/unnamed/part_005, the recording
finalisation): an empty buffer is dropped; the minimum-speech floor is
checked only under hasSpeech with a nonzero speech onset; everything
else reaches the speech-to-text hand-off.  Durations are milliseconds
as exact rationals; the transcription and command handling past the
hand-off are irrelevant to the claim, so the outcome stops there. -/
def processRecordedAudio (audioLen : ℕ) (flags : VADFlags)
    (speechDurationMs minSpeechMs : ℚ) : RecordedOutcome :=
  if audioLen = 0 then .droppedNoAudio
  else
    if flags.hasSpeech ∧ ¬ flags.speechStartIsZero then
      if speechDurationMs < minSpeechMs then .droppedTooShort
      else .transcribed
    else .transcribed

/-- A Go channel reduced to what close observes. -/
structure GoChannel where
  closed : Bool
  deriving DecidableEq, Repr

/-- close(ch): closing an already-closed channel panics (none). -/
def closeChannel (c : GoChannel) : Option GoChannel :=
  if c.closed then none else some ⟨true⟩

/-- The channel state of a Pipeline relevant to Stop. -/
structure PipelineChans where
  stopChan : GoChannel
  deriving DecidableEq, Repr

/-- NewPipeline (part_005 lines 78 to 92): the stop channel starts
open. -/
def NewPipeline : PipelineChans :=
  ⟨⟨false⟩⟩

/-- Stop (part_005 lines 142 to 146): unconditionally closes stopChan;
none models the close-of-closed-channel panic. -/
def PipelineStop (p : PipelineChans) : Option PipelineChans :=
  (closeChannel p.stopChan).map (fun c => { p with stopChan := c })

/-- One dispatch decision of the run loop select (part_005): a closed
stop channel is immediately receivable, so the loop returns. -/
def runSelectStops (p : PipelineChans) : Bool :=
  p.stopChan.closed

/-! ## Configuration (internal/config: config.go, defaults.go, loader.go)
    Go int fields are modelled as ℤ and float64 fields as ℚ. -/

/-- config.GeneralConfig. -/
structure GeneralConfig where
  language : String
  logLevel : String
  dataDir : String
  deriving DecidableEq, Repr

/-- config.VADConfig. -/
structure VADConfig where
  enabled : Bool
  sensitivity : ℚ
  silenceThresholdMs : ℤ
  minSpeechMs : ℤ
  deriving DecidableEq, Repr

/-- config.WakeWordConfig. -/
structure WakeWordConfig where
  enabled : Bool
  word : String
  threshold : ℚ
  deriving DecidableEq, Repr

/-- config.AudioConfig. -/
structure AudioConfig where
  device : String
  sampleRate : ℤ
  channels : ℤ
  chunkSize : ℤ
  vad : VADConfig
  wakeWord : WakeWordConfig
  deriving DecidableEq, Repr

/-- config.HotkeyConfig. -/
structure HotkeyConfig where
  enabled : Bool
  key : String
  mode : String
  deriving DecidableEq, Repr

/-- config.WhisperConfig. -/
structure WhisperConfig where
  binaryPath : String
  modelPath : String
  language : String
  deriving DecidableEq, Repr

/-- config.OpenAISTTConfig. -/
structure OpenAISTTConfig where
  apiKey : String
  model : String
  deriving DecidableEq, Repr

/-- config.STTConfig. -/
structure STTConfig where
  provider : String
  whisper : WhisperConfig
  openai : OpenAISTTConfig
  deriving DecidableEq, Repr

/-- config.OllamaConfig. -/
structure OllamaConfig where
  url : String
  model : String
  timeoutSeconds : ℤ
  deriving DecidableEq, Repr

/-- config.OpenAILLMConfig. -/
structure OpenAILLMConfig where
  apiKey : String
  model : String
  temperature : ℚ
  deriving DecidableEq, Repr

/-- config.LLMConfig. -/
structure LLMConfig where
  provider : String
  ollama : OllamaConfig
  openai : OpenAILLMConfig
  deriving DecidableEq, Repr

/-- config.PiperConfig. -/
structure PiperConfig where
  binaryPath : String
  modelPath : String
  speed : ℚ
  deriving DecidableEq, Repr

/-- config.OpenAITTSConfig. -/
structure OpenAITTSConfig where
  apiKey : String
  model : String
  voice : String
  deriving DecidableEq, Repr

/-- config.TTSConfig. -/
structure TTSConfig where
  provider : String
  piper : PiperConfig
  openai : OpenAITTSConfig
  deriving DecidableEq, Repr

/-- config.TwitchConfig. -/
structure TwitchConfig where
  enabled : Bool
  clientID : String
  clientSecret : String
  redirectURI : String
  broadcasterID : String
  accessToken : String
  refreshToken : String
  deriving DecidableEq, Repr

/-- config.OBSConfig. -/
structure OBSConfig where
  enabled : Bool
  url : String
  password : String
  deriving DecidableEq, Repr

/-- config.MusicConfig. -/
structure MusicConfig where
  enabled : Bool
  folders : List String
  supportedFormats : List String
  defaultVolume : ℚ
  shuffle : Bool
  deriving DecidableEq, Repr

/-- config.SoundsConfig. -/
structure SoundsConfig where
  enabled : Bool
  wake : String
  error : String
  startRecording : String
  stopRecording : String
  deriving DecidableEq, Repr

/-- config.Config. -/
structure Config where
  general : GeneralConfig
  audio : AudioConfig
  hotkey : HotkeyConfig
  stt : STTConfig
  llm : LLMConfig
  tts : TTSConfig
  twitch : TwitchConfig
  obs : OBSConfig
  music : MusicConfig
  sounds : SoundsConfig
  deriving DecidableEq, Repr

/-- DefaultConfig (internal/config/defaults.go lines 4 to 96); fields the
source leaves unset carry the Go zero value. -/
def DefaultConfig : Config where
  general := ⟨"es", "info", "./data"⟩
  audio :=
    { device := "default"
      sampleRate := 16000
      channels := 1
      chunkSize := 1024
      vad := ⟨true, 0.5, 1500, 300⟩
      wakeWord := ⟨true, "jarvis", 0.7⟩ }
  hotkey := ⟨true, "F4", "hold"⟩
  stt :=
    { provider := "whisper"
      whisper := ⟨"./bin/whisper", "./assets/models/whisper/ggml-base.bin", "es"⟩
      openai := ⟨"", "whisper-1"⟩ }
  llm :=
    { provider := "ollama"
      ollama := ⟨"http://localhost:11434", "llama3.2:3b", 30⟩
      openai := ⟨"", "gpt-4o-mini", 0.3⟩ }
  tts :=
    { provider := "piper"
      piper := ⟨"./bin/piper", "./assets/voices/piper/es_ES-davefx-medium.onnx", 1.0⟩
      openai := ⟨"", "tts-1", "nova"⟩ }
  twitch := ⟨false, "", "", "http://localhost:3000/callback", "", "", ""⟩
  obs := ⟨false, "ws://localhost:4455", ""⟩
  music := ⟨true, ["./music"], [".mp3", ".wav", ".ogg", ".flac"], 0.5, false⟩
  sounds :=
    ⟨true, "./assets/sounds/wake.wav", "./assets/sounds/error.wav",
     "./assets/sounds/beep_start.wav", "./assets/sounds/beep_end.wav"⟩

/-- The General section of ApplyDefaults (defaults.go lines 102 to 111). -/
def applyGeneralDefaults (g d : GeneralConfig) : GeneralConfig :=
  let g := if g.language = "" then { g with language := d.language } else g
  let g := if g.logLevel = "" then { g with logLevel := d.logLevel } else g
  let g := if g.dataDir = "" then { g with dataDir := d.dataDir } else g
  g

/-- The VAD part of ApplyDefaults (defaults.go lines 127 to 133). -/
def applyVADDefaults (v d : VADConfig) : VADConfig :=
  let v := if v.silenceThresholdMs = 0 then { v with silenceThresholdMs := d.silenceThresholdMs } else v
  let v := if v.minSpeechMs = 0 then { v with minSpeechMs := d.minSpeechMs } else v
  v

/-- The wake-word part of ApplyDefaults (defaults.go lines 135 to 141). -/
def applyWakeWordDefaults (w d : WakeWordConfig) : WakeWordConfig :=
  let w := if w.word = "" then { w with word := d.word } else w
  let w := if w.threshold = 0 then { w with threshold := d.threshold } else w
  w

/-- The Audio section of ApplyDefaults (defaults.go lines 113 to 141). -/
def applyAudioDefaults (a d : AudioConfig) : AudioConfig :=
  let a := if a.sampleRate = 0 then { a with sampleRate := d.sampleRate } else a
  let a := if a.channels = 0 then { a with channels := d.channels } else a
  let a := if a.chunkSize = 0 then { a with chunkSize := d.chunkSize } else a
  let a := if a.device = "" then { a with device := d.device } else a
  { a with vad := applyVADDefaults a.vad d.vad
           wakeWord := applyWakeWordDefaults a.wakeWord d.wakeWord }

/-- The Hotkey section of ApplyDefaults (defaults.go lines 143 to 149). -/
def applyHotkeyDefaults (h d : HotkeyConfig) : HotkeyConfig :=
  let h := if h.key = "" then { h with key := d.key } else h
  let h := if h.mode = "" then { h with mode := d.mode } else h
  h

/-- The STT section of ApplyDefaults (defaults.go lines 151 to 163). -/
def applySTTDefaults (s d : STTConfig) : STTConfig :=
  let s := if s.provider = "" then { s with provider := d.provider } else s
  let s := if s.whisper.binaryPath = "" then { s with whisper.binaryPath := d.whisper.binaryPath } else s
  let s := if s.whisper.language = "" then { s with whisper.language := d.whisper.language } else s
  let s := if s.openai.model = "" then { s with openai.model := d.openai.model } else s
  s

/-- The LLM section of ApplyDefaults (defaults.go lines 165 to 183). -/
def applyLLMDefaults (l d : LLMConfig) : LLMConfig :=
  let l := if l.provider = "" then { l with provider := d.provider } else l
  let l := if l.ollama.url = "" then { l with ollama.url := d.ollama.url } else l
  let l := if l.ollama.model = "" then { l with ollama.model := d.ollama.model } else l
  let l := if l.ollama.timeoutSeconds = 0 then { l with ollama.timeoutSeconds := d.ollama.timeoutSeconds } else l
  let l := if l.openai.model = "" then { l with openai.model := d.openai.model } else l
  let l := if l.openai.temperature = 0 then { l with openai.temperature := d.openai.temperature } else l
  l

/-- The TTS section of ApplyDefaults (defaults.go lines 185 to 200). -/
def applyTTSDefaults (t d : TTSConfig) : TTSConfig :=
  let t := if t.provider = "" then { t with provider := d.provider } else t
  let t := if t.piper.binaryPath = "" then { t with piper.binaryPath := d.piper.binaryPath } else t
  let t := if t.piper.speed = 0 then { t with piper.speed := d.piper.speed } else t
  let t := if t.openai.model = "" then { t with openai.model := d.openai.model } else t
  let t := if t.openai.voice = "" then { t with openai.voice := d.openai.voice } else t
  t

/-- The Twitch section of ApplyDefaults (defaults.go lines 202 to 205). -/
def applyTwitchDefaults (t d : TwitchConfig) : TwitchConfig :=
  if t.redirectURI = "" then { t with redirectURI := d.redirectURI } else t

/-- The OBS section of ApplyDefaults (defaults.go lines 207 to 210). -/
def applyOBSDefaults (o d : OBSConfig) : OBSConfig :=
  if o.url = "" then { o with url := d.url } else o

/-- The Music section of ApplyDefaults (defaults.go lines 212 to 221). -/
def applyMusicDefaults (m d : MusicConfig) : MusicConfig :=
  let m := if m.folders.length = 0 then { m with folders := d.folders } else m
  let m := if m.supportedFormats.length = 0 then { m with supportedFormats := d.supportedFormats } else m
  let m := if m.defaultVolume = 0 then { m with defaultVolume := d.defaultVolume } else m
  m

/-- The Sounds section of ApplyDefaults (defaults.go lines 223 to 235). -/
def applySoundsDefaults (s d : SoundsConfig) : SoundsConfig :=
  let s := if s.wake = "" then { s with wake := d.wake } else s
  let s := if s.error = "" then { s with error := d.error } else s
  let s := if s.startRecording = "" then { s with startRecording := d.startRecording } else s
  let s := if s.stopRecording = "" then { s with stopRecording := d.stopRecording } else s
  s

/-- ApplyDefaults (defaults.go lines 99 to 236): every zero-valued field
of the list the source enumerates is overwritten with its default; the
sections touch disjoint parts of the tree, combined here
section-wise. -/
def ApplyDefaults (cfg : Config) : Config :=
  let d := DefaultConfig
  { cfg with
    general := applyGeneralDefaults cfg.general d.general
    audio := applyAudioDefaults cfg.audio d.audio
    hotkey := applyHotkeyDefaults cfg.hotkey d.hotkey
    stt := applySTTDefaults cfg.stt d.stt
    llm := applyLLMDefaults cfg.llm d.llm
    tts := applyTTSDefaults cfg.tts d.tts
    twitch := applyTwitchDefaults cfg.twitch d.twitch
    obs := applyOBSDefaults cfg.obs d.obs
    music := applyMusicDefaults cfg.music d.music
    sounds := applySoundsDefaults cfg.sounds d.sounds }

/-- expandEnvVars (loader.go lines 78 to 105); expand models
os.ExpandEnv, applied to exactly the fields the source lists. -/
def expandEnvVars (expand : String → String) (cfg0 : Config) : Config :=
  let cfg := cfg0
  let cfg := { cfg with stt.openai.apiKey := expand cfg.stt.openai.apiKey }
  let cfg := { cfg with stt.whisper.binaryPath := expand cfg.stt.whisper.binaryPath }
  let cfg := { cfg with stt.whisper.modelPath := expand cfg.stt.whisper.modelPath }
  let cfg := { cfg with llm.openai.apiKey := expand cfg.llm.openai.apiKey }
  let cfg := { cfg with tts.openai.apiKey := expand cfg.tts.openai.apiKey }
  let cfg := { cfg with tts.piper.binaryPath := expand cfg.tts.piper.binaryPath }
  let cfg := { cfg with tts.piper.modelPath := expand cfg.tts.piper.modelPath }
  let cfg := { cfg with general.dataDir := expand cfg.general.dataDir }
  let cfg := { cfg with music.folders := cfg.music.folders.map expand }
  let cfg := { cfg with sounds.wake := expand cfg.sounds.wake }
  let cfg := { cfg with sounds.error := expand cfg.sounds.error }
  let cfg := { cfg with sounds.startRecording := expand cfg.sounds.startRecording }
  let cfg := { cfg with sounds.stopRecording := expand cfg.sounds.stopRecording }
  cfg

/-- The validation failures of Validate (loader.go lines 108 to 197),
one constructor per fmt string of the source, in the order the source
can append them. -/
inductive ConfigError
  | sttOpenAIKeyMissing
  | sttProviderInvalid
  | llmOllamaURLMissing
  | llmOllamaModelMissing
  | llmOpenAIKeyMissing
  | llmAutoUnconfigured
  | llmProviderInvalid
  | ttsOpenAIKeyMissing
  | ttsAutoUnconfigured
  | ttsProviderInvalid
  | twitchClientIDMissing
  | audioSampleRateNonpositive
  | audioChannelsNonpositive
  | vadSensitivityOutOfRange
  | hotkeyModeInvalid
  | musicVolumeOutOfRange
  deriving DecidableEq, Repr

/-- Validate (loader.go lines 108 to 197): the list of failures in the
order the source collects them; the empty list is a nil error. -/
def Validate (cfg : Config) : List ConfigError :=
  (if cfg.stt.provider = "whisper" then []
   else if cfg.stt.provider = "openai" then
     if cfg.stt.openai.apiKey = "" then [.sttOpenAIKeyMissing] else []
   else [.sttProviderInvalid])
  ++ (if cfg.llm.provider = "ollama" then
        (if cfg.llm.ollama.url = "" then [.llmOllamaURLMissing] else []) ++
        (if cfg.llm.ollama.model = "" then [.llmOllamaModelMissing] else [])
      else if cfg.llm.provider = "openai" then
        if cfg.llm.openai.apiKey = "" then [.llmOpenAIKeyMissing] else []
      else if cfg.llm.provider = "auto" then
        if cfg.llm.openai.apiKey = "" ∧ cfg.llm.ollama.url = "" then
          [.llmAutoUnconfigured]
        else []
      else [.llmProviderInvalid])
  ++ (if cfg.tts.provider = "piper" then []
      else if cfg.tts.provider = "openai" then
        if cfg.tts.openai.apiKey = "" then [.ttsOpenAIKeyMissing] else []
      else if cfg.tts.provider = "auto" then
        if cfg.tts.openai.apiKey = "" ∧ cfg.tts.piper.binaryPath = "" then
          [.ttsAutoUnconfigured]
        else []
      else [.ttsProviderInvalid])
  ++ (if cfg.twitch.enabled ∧ cfg.twitch.clientID = "" then
        [.twitchClientIDMissing]
      else [])
  ++ (if cfg.audio.sampleRate ≤ 0 then [.audioSampleRateNonpositive] else [])
  ++ (if cfg.audio.channels ≤ 0 then [.audioChannelsNonpositive] else [])
  ++ (if cfg.audio.vad.sensitivity < 0 ∨ 1 < cfg.audio.vad.sensitivity then
        [.vadSensitivityOutOfRange]
      else [])
  ++ (if cfg.hotkey.enabled ∧ cfg.hotkey.mode ≠ "hold" ∧ cfg.hotkey.mode ≠ "toggle" then
        [.hotkeyModeInvalid]
      else [])
  ++ (if cfg.music.defaultVolume < 0 ∨ 1 < cfg.music.defaultVolume then
        [.musicVolumeOutOfRange]
      else [])

/-- The outcome of the viper configuration lookup in Load: the file was
not found anywhere, reading failed, or a Config was unmarshalled. -/
inductive ConfigRead
  | notFound
  | readError (msg : String)
  | parsed (cfg : Config)

/-- Load (loader.go lines 24 to 75), over the outcome of the file
lookup.  A missing file returns DefaultConfig DIRECTLY with a nil
error (no ApplyDefaults, no Validate on that path); a parsed file gets
defaults applied, environment variables expanded, and is validated
(the source joins the failure messages into the returned error; the
model keeps only a fixed message since the failures are tags). -/
def Load (expand : String → String) (read : ConfigRead) : Except String Config :=
  match read with
  | .notFound => .ok DefaultConfig
  | .readError m => .error ("error reading config file: " ++ m)
  | .parsed cfg =>
    let cfg := ApplyDefaults cfg
    let cfg := expandEnvVars expand cfg
    if Validate cfg = [] then .ok cfg
    else .error "config validation error"

/-! ## Theorems -/

/-- C1.  The specification lists reference cases for the restricted
arithmetic evaluator: "2+2" to 4, "5*8" to 40, "20/4" to 5, "(2+3)*4"
to 20, "1/0" to a division-by-zero error, "2^3" to a numeric-parse
error, letters rejected before evaluation.  The code disagrees on four
of the seven: regexp Split in Go drops the separators, so the
operator-recovery logic of simpleEval and parseAndMultiplyDivide reads
the last digit of the preceding operand instead of an operator; every
multiplication and division is silently skipped and every + or - term
is replaced by a re-addition of the preceding part.  Evaluating the
embedded code at the reference inputs: "2+2" gives 4 (only by the
numeric accident 2+2 = 2 doubled), "5*8" gives 5, "20/4" gives 20,
"(2+3)*4" gives 4, "1/0" gives 1 WITHOUT any error, while "2^3" does
fail at the numeric parse and an input with a letter is rejected up
front, as claimed. -/
theorem C1_calc_reference_cases :
    evaluateExpression "2+2" = .ok ⟨4, 1⟩ ∧
    evaluateExpression "5*8" = .ok ⟨5, 1⟩ ∧
    evaluateExpression "20/4" = .ok ⟨20, 1⟩ ∧
    evaluateExpression "(2+3)*4" = .ok ⟨4, 1⟩ ∧
    evaluateExpression "1/0" = .ok ⟨1, 1⟩ ∧
    evaluateExpression "2^3" = .error (.invalidNumber ['2', '^', '3']) ∧
    evaluateExpression "2a+2" = .error .invalidExpr := by
  decide

/-- C4.  CalculateRMS does return 0 on an empty block and on an all-zero
block, but on every other block it returns the MEAN OF SQUARES, not its
square root: the source never applies math.Sqrt, contradicting its own
doc comment ("calculates the Root Mean Square") and the specification.
At the one-sample block [2] the code returns 4 while the
root-mean-square of that block is 2. -/
theorem C4_rms_is_mean_square_not_rms :
    CalculateRMS [] = 0 ∧
    CalculateRMS [0, 0, 0] = 0 ∧
    CalculateRMS [2] = 4 ∧
    ¬ IsRootMeanSquare [2] (CalculateRMS [2]) := by
  refine ⟨by simp [CalculateRMS], by norm_num [CalculateRMS],
    by norm_num [CalculateRMS], ?_⟩
  rintro ⟨-, h⟩
  norm_num [CalculateRMS] at h

/-- C7.  The obs.volume action clamps the caller volume to [0,1] and maps
it to decibels with the documented simplified curve: any nonpositive
volume hits the -100 dB effectively-muted floor, any volume in (0,1]
maps to 20 * (v - 1) * 2 (so 1 maps to 0 dB and 1/2 maps to -20 dB),
and any volume above 1 is clamped to 1, hence 0 dB; the decibel value is
what the SetInputVolume request carries. -/
theorem C7_obs_volume_mapping :
    obsVolumeDb 1 = 0 ∧
    obsVolumeDb (1 / 2) = -20 ∧
    obsVolumeDb 0 = -100 ∧
    (∀ v : ℚ, v ≤ 0 → obsVolumeDb v = -100) ∧
    (∀ v : ℚ, 0 < v → v ≤ 1 → obsVolumeDb v = 20 * (v - 1) * 2) ∧
    (∀ v : ℚ, 1 < v → obsVolumeDb v = 0) ∧
    obsSetVolumeRequest "mic" (1 / 2) = some ("mic", -20) := by
  refine ⟨by norm_num [obsVolumeDb], by norm_num [obsVolumeDb],
    by norm_num [obsVolumeDb], ?_, ?_, ?_,
    by simp [obsSetVolumeRequest]; norm_num [obsVolumeDb]⟩
  · intro v hv
    simp only [obsVolumeDb]
    split_ifs <;> first | rfl | linarith
  · intro v hv0 hv1
    simp only [obsVolumeDb]
    split_ifs <;> first | rfl | linarith
  · intro v hv
    simp only [obsVolumeDb]
    split_ifs <;> first | rfl | linarith

/-- Closed witness for C7: applying the mapping theorem at the concrete
in-range volume 3/4 gives -10 dB. -/
theorem C7_obs_volume_mapping_witness : obsVolumeDb (3 / 4) = -10 := by
  have h := C7_obs_volume_mapping.2.2.2.2.1 (3 / 4) (by norm_num) (by norm_num)
  rw [h]; norm_num

/-- C6.  With no language-model provider, or with one whose IsAvailable
answers false, ProcessCommand returns the fixed degraded-mode message
with a nil error, for every input text, every speech-synthesis
provider and every registry content; Complete is never invoked (the
Bool component is false), so no transport error can propagate. -/
theorem C6_brain_degraded_mode :
    (∀ (tts : Option TTSProviderModel) (execs : List ExecutorModel) (text : String),
      ProcessCommand none tts execs text = (.ok noProviderMsg, false)) ∧
    (∀ (p : LLMProviderModel) (tts : Option TTSProviderModel)
       (execs : List ExecutorModel) (text : String),
      p.available = false →
      ProcessCommand (some p) tts execs text = (.ok noProviderMsg, false)) := by
  constructor
  · intro tts execs text
    rfl
  · intro p tts execs text h
    simp [ProcessCommand, h]

/-- Closed witness for C6: a provider that is unavailable and whose
Complete would fail with a transport error still yields the fixed
message and no error, without the transport error ever surfacing. -/
theorem C6_brain_degraded_mode_witness :
    ProcessCommand
      (some ⟨"ollama", false, fun _ => .error "connection refused"⟩)
      none [] "enciende la música" = (.ok noProviderMsg, false) :=
  C6_brain_degraded_mode.2 _ none [] _ rfl

/-- C9.  Registry.Execute on an action whose matching executor reports
unavailable returns the "executor ... is not available" error without
running the executor body (the event trace is empty); instantiated with
the OBS executor, whose IsAvailable requires an existing connection, a
registry-dispatched action never triggers the lazy Connect while the
executor is disconnected, whatever the enabled flag, the Connect
outcome and the action. -/
theorem C9_registry_unavailable_guard :
    (∀ (execs : List ExecutorModel) (a : GoAction) (e : ExecutorModel),
      FindExecutor execs a.action = some e → e.isAvailable = false →
      RegistryExecute execs a =
        ((NewErrorResult ("executor " ++ e.name ++ " is not available"),
          some ("executor " ++ e.name ++ " is not available")), [])) ∧
    (∀ (st : OBSState) (connectErr : Option String)
       (dispatch : GoAction → GoResult × Option String) (a : GoAction),
      st.connected = false →
      (RegistryExecute [obsExecutorModel st connectErr dispatch] a).2 = []) := by
  constructor
  · intro execs a e hfind hunavail
    simp [RegistryExecute, hfind, hunavail]
  · intro st connectErr dispatch a hconn
    by_cases hhandle : (GoAction.action a).startsWith "obs." = true
    · have hfind : FindExecutor [obsExecutorModel st connectErr dispatch] a.action =
          some (obsExecutorModel st connectErr dispatch) := by
        simp [FindExecutor, obsExecutorModel, hhandle]
      have hunavail : (obsExecutorModel st connectErr dispatch).isAvailable = false := by
        simp [obsExecutorModel, obsIsAvailable, hconn]
      simp [RegistryExecute, hfind, hunavail]
    · have hfind : FindExecutor [obsExecutorModel st connectErr dispatch] a.action = none := by
        simp [FindExecutor, obsExecutorModel, hhandle]
      simp [RegistryExecute, hfind]

/-- Closed witness for C9: an enabled but disconnected OBS executor,
asked through the registry for obs.scene, yields no events at all (in
particular no Connect), by the theorem. -/
theorem C9_registry_unavailable_guard_witness :
    (RegistryExecute
      [obsExecutorModel ⟨true, false⟩ none (fun _ => (NewResult "ok", none))]
      ⟨"obs.scene", [], "listo"⟩).2 = [] :=
  C9_registry_unavailable_guard.2 ⟨true, false⟩ none _ _ rfl

/-- C3 counterexample.  The claim says previous invoked at current index
0 clamps the index to 0; on the three-track playlist a, b, c with
current index 0 the code instead sets the index to length minus two,
that is 1, and reports the track one past it, c. -/
theorem C3_previous_counterexample :
    musicPrevious [['a'], ['b'], ['c']] 0 =
      some ((NewResultWithData "Previous track" [("track", .str "c")], none), 1) ∧
    (1 : ℤ) ≠ 0 := by
  constructor
  · decide
  · decide

/-- C3 amended.  What the code does: next on a single-track playlist
computes a next index wrapped to 0 (for any nonnegative current index);
previous at current index 0 sets the index to the playlist length minus
two when that is nonnegative (so 0 only on playlists of at most two
tracks, never a negative index) and on a single-track playlist the
reported-track lookup at index 1 panics; play whose query matches no
walked file returns the "no music found" failure result. -/
theorem C3_music_navigation_amended :
    (∀ (t : List Char) (i : ℤ), 0 ≤ i →
      (musicNext [t] i).map Prod.snd = some 0) ∧
    (∀ (playlist : List (List Char)), 2 ≤ playlist.length →
      (musicPrevious playlist 0).map Prod.snd = some ((playlist.length : ℤ) - 2)) ∧
    (∀ (t : List Char), musicPrevious [t] 0 = none) ∧
    (∀ (formats files : List (List Char)) (sh : Bool)
       (perm : List (List Char) → List (List Char)) (a : GoAction),
      (∀ p ∈ files, trackMatches formats (a.getStringParam "query").data p = false) →
      musicPlay formats files sh perm a = (NewErrorResult "no music found", none)) := by
  refine ⟨?_, ?_, ?_, ?_⟩
  · intro t i hi
    simp [musicNext, listGetZ, hi]
  · intro pl hpl
    have h0 : ¬ pl.length = 0 := by omega
    have hneg : (0 : ℤ) - 2 < 0 := by omega
    have hpos : ¬ ((pl.length : ℤ) - 2 < 0) := by omega
    have hc : 0 ≤ (pl.length : ℤ) - 2 + 1 ∧ (pl.length : ℤ) - 2 + 1 < (pl.length : ℤ) := by
      constructor <;> omega
    simp only [musicPrevious, h0, if_false, hneg, if_true, hpos, listGetZ, hc]
    simp
  · intro t
    simp [musicPrevious, listGetZ]
  · intro formats files sh perm a h
    have hload : loadPlaylist formats (a.getStringParam "query").data files = [] := by
      rw [loadPlaylist, List.filter_eq_nil_iff]
      intro p hp
      simp [h p hp]
    simp [musicPlay, hload]

/-- Closed witness for C3: the amended statement applied at concrete
playlists (single track for next and for the previous panic, three
tracks for previous at index 0, and a play whose configured format list
is empty so that nothing matches). -/
theorem C3_music_navigation_amended_witness :
    (musicNext [['a']] 0).map Prod.snd = some 0 ∧
    (musicPrevious [['a'], ['b'], ['c']] 0).map Prod.snd = some 1 ∧
    musicPrevious [['a']] 0 = none ∧
    musicPlay [] [['x', '.', 'm', 'p', '3']] false id ⟨"music.play", [], ""⟩ =
      (NewErrorResult "no music found", none) := by
  refine ⟨C3_music_navigation_amended.1 ['a'] 0 (by norm_num), ?_,
    C3_music_navigation_amended.2.2.1 ['a'],
    C3_music_navigation_amended.2.2.2 [] _ false id _ (by decide)⟩
  have h := C3_music_navigation_amended.2.1 [['a'], ['b'], ['c']] (by norm_num)
  rw [h]; norm_num

/-- C2 counterexample.  The claim says a second consecutive 401 after a
successful refresh is not refreshed-and-retried again within the same
call (one refresh attempt per call).  With responses 401, 401, 200 and
two successful refreshes the call performs TWO refresh attempts and a
second retry, returning the third response. -/
theorem C2_second_401_refreshed_again :
    apiRequest ⟨"tok", "ref"⟩
      [.response 401 "", .response 401 "", .response 200 "ok"]
      [.refreshed "a1" "r1", .refreshed "a2" "r2"] = (.ok "ok", 2) ∧
    (2 : ℕ) ≠ 1 := by
  constructor
  · decide
  · decide

/-- C2 amended.  A 401 with a refresh token present triggers one refresh
attempt and a retry of the original request; when the retry is not a
401 that is exactly one refresh and one retry, and a refresh failure is
returned as the combined error naming the unauthorized condition and
the refresh failure.  But the retry is a full recursive call, so every
further consecutive 401 adds one more refresh-and-retry: refreshes are
not limited to one per call. -/
theorem C2_token_refresh_amended :
    (∀ (t : TwitchTokens) (a r body : String) (status : ℕ)
       (rest : List APIResponse) (renv : List RefreshOutcome),
      t.refreshToken ≠ "" → status ≠ 401 → status < 400 →
      apiRequest t (.response 401 "" :: .response status body :: rest)
        (.refreshed a r :: renv) = (.ok body, 1)) ∧
    (∀ (t : TwitchTokens) (failBody b : String) (rest : List APIResponse)
       (renv : List RefreshOutcome),
      t.refreshToken ≠ "" →
      apiRequest t (.response 401 b :: rest) (.httpFailure failBody :: renv) =
        (.error ("unauthorized and failed to refresh token: " ++
          ("token refresh failed: " ++ failBody)), 1)) ∧
    (∀ (t : TwitchTokens) (a r b : String) (rest : List APIResponse)
       (renv : List RefreshOutcome),
      t.refreshToken ≠ "" →
      apiRequest t (.response 401 b :: rest) (.refreshed a r :: renv) =
        ((apiRequest ⟨a, r⟩ rest renv).1, (apiRequest ⟨a, r⟩ rest renv).2 + 1)) := by
  refine ⟨?_, ?_, ?_⟩
  · intro t a r body status rest renv htok hstat hlt
    have h4 : ¬ (400 ≤ status) := by omega
    simp [apiRequest, refreshAccessToken, htok, hstat, h4]
  · intro t failBody b rest renv htok
    simp [apiRequest, refreshAccessToken, htok]
  · intro t a r b rest renv htok
    simp [apiRequest, refreshAccessToken, htok]

/-- Closed witness for C2: the amended statement at a concrete trace with
one 401, one successful refresh and a 200 retry. -/
theorem C2_token_refresh_amended_witness :
    apiRequest ⟨"tok", "ref"⟩ [.response 401 "", .response 200 "ok"]
      [.refreshed "a" "r"] = (.ok "ok", 1) :=
  C2_token_refresh_amended.1 ⟨"tok", "ref"⟩ "a" "r" "ok" 200 [] []
    (by decide) (by decide) (by decide)

/-- C8.  The minimum-speech-duration floor is enforced only when a speech
onset was flagged: when hasSpeech is false, or the recorded onset is
still the zero time, every non-empty buffer reaches the speech-to-text
hand-off whatever its duration; and when the onset was flagged, a
duration below the floor is dropped. -/
theorem C8_min_speech_floor_only_when_flagged :
    (∀ (n : ℕ) (flags : VADFlags) (d m : ℚ),
      flags.hasSpeech = false → n ≠ 0 →
      processRecordedAudio n flags d m = .transcribed) ∧
    (∀ (n : ℕ) (flags : VADFlags) (d m : ℚ),
      flags.speechStartIsZero = true → n ≠ 0 →
      processRecordedAudio n flags d m = .transcribed) ∧
    (∀ (n : ℕ) (flags : VADFlags) (d m : ℚ),
      flags.hasSpeech = true → flags.speechStartIsZero = false →
      d < m → n ≠ 0 →
      processRecordedAudio n flags d m = .droppedTooShort) := by
  refine ⟨?_, ?_, ?_⟩
  · intro n flags d m hs hn
    simp [processRecordedAudio, hs, hn]
  · intro n flags d m hz hn
    simp [processRecordedAudio, hz, hn]
  · intro n flags d m hs hz hd hn
    simp [processRecordedAudio, hs, hz, hd, hn]

/-- Closed witness for C8: with voice-activity detection never having
flagged speech, a 100-byte buffer whose notional duration 0 is far
below the default 300 ms floor is still handed to the speech-to-text
provider. -/
theorem C8_min_speech_floor_only_when_flagged_witness :
    processRecordedAudio 100 ⟨false, true⟩ 0 300 = .transcribed :=
  C8_min_speech_floor_only_when_flagged.1 100 ⟨false, true⟩ 0 300 rfl (by decide)

/-- C10.  Stop is not idempotent: on a fresh pipeline the first Stop
closes the stop channel (after which the run loop select terminates the
loop), and a second Stop on any pipeline produced by a successful Stop
panics by closing an already-closed channel. -/
theorem C10_stop_not_idempotent :
    (∀ (p q : PipelineChans), PipelineStop p = some q → runSelectStops q = true) ∧
    (∀ (p q : PipelineChans), PipelineStop p = some q → PipelineStop q = none) ∧
    PipelineStop NewPipeline = some ⟨⟨true⟩⟩ ∧
    (PipelineStop NewPipeline).bind PipelineStop = none := by
  refine ⟨?_, ?_, by decide, by decide⟩
  · intro p q h
    rcases p with ⟨⟨closed⟩⟩
    cases closed
    · simp [PipelineStop, closeChannel] at h
      simp [← h, runSelectStops]
    · simp [PipelineStop, closeChannel] at h
  · intro p q h
    rcases p with ⟨⟨closed⟩⟩
    cases closed
    · simp [PipelineStop, closeChannel] at h
      simp [← h, PipelineStop, closeChannel]
    · simp [PipelineStop, closeChannel] at h

/-- Closed witness for C10: the first Stop on a fresh pipeline succeeds
with the channel closed, and by the theorem that state both terminates
the run loop and panics on a second Stop. -/
theorem C10_stop_not_idempotent_witness :
    runSelectStops ⟨⟨true⟩⟩ = true ∧ PipelineStop ⟨⟨true⟩⟩ = none :=
  ⟨C10_stop_not_idempotent.1 NewPipeline ⟨⟨true⟩⟩ (by decide),
   C10_stop_not_idempotent.2.1 NewPipeline ⟨⟨true⟩⟩ (by decide)⟩

/-- C5.  Load with no configuration file found returns the default tree
with a nil error, whatever the environment expansion; that tree has
audio sample rate 16000, VAD silence threshold 1500 ms, LLM provider
ollama at localhost port 11434 with the llama3.2:3b model, TTS provider
piper; and Validate accepts the default tree unmodified (no failure is
collected). -/
theorem C5_default_config_load_and_validate :
    (∀ expand : String → String, Load expand .notFound = .ok DefaultConfig) ∧
    DefaultConfig.audio.sampleRate = 16000 ∧
    DefaultConfig.audio.vad.silenceThresholdMs = 1500 ∧
    DefaultConfig.llm.provider = "ollama" ∧
    DefaultConfig.llm.ollama.url = "http://localhost:11434" ∧
    DefaultConfig.llm.ollama.model = "llama3.2:3b" ∧
    DefaultConfig.tts.provider = "piper" ∧
    Validate DefaultConfig = [] := by
  refine ⟨fun expand => rfl, rfl, rfl, rfl, rfl, rfl, rfl, ?_⟩
  norm_num [Validate, DefaultConfig]
  all_goals decide

/-- Closed witness for C5 at the identity environment expansion. -/
theorem C5_default_config_load_and_validate_witness :
    Load id .notFound = .ok DefaultConfig :=
  C5_default_config_load_and_validate.1 id

end Jarvis
